import Mathlib

/-!
Verification development for the SubNetx connection-tracking subsystem.

The definitions below are a shallow embedding of
`src/vpn/metrics/collector/database.py` (class `ConnectionDatabase`) and the
edge-triggered driver loop in `src/vpn/metrics/collector/connection.py`
(`ConnectionMonitor._check_connection`).  Timestamps and durations are
modelled as rationals (seconds since an arbitrary epoch); `datetime.now()`
becomes an explicit `now` argument; the SQLite tables become lists of rows.
SQL `NULL` becomes `Option`.  Each operation threads the whole store
explicitly.
-/

namespace SubNetx

/-- A row of the `connection_events` table.  `timestamp` is the SQLite
`DEFAULT CURRENT_TIMESTAMP`, i.e. the wall-clock time of the insert. -/
structure Event where
  target : String
  timestamp : ℚ
  event_type : String
  session_duration : Option ℚ
deriving DecidableEq, Repr

/-- A row of the `connection_sessions` table.  `id` models the
`AUTOINCREMENT` primary key. -/
structure Session where
  id : Nat
  target : String
  start_time : ℚ
  end_time : Option ℚ
  duration : Option ℚ
  status : String
deriving DecidableEq, Repr

/-- A row of the `target_status` table (the `target` column is declared
`UNIQUE NOT NULL` in the schema). -/
structure TargetStatus where
  target : String
  is_connected : Bool
  last_check : ℚ
  last_status_change : ℚ
  consecutive_status_duration : ℚ
  total_uptime : ℚ
  total_downtime : ℚ
deriving DecidableEq, Repr

/-- A row of the `stability_metrics` table. -/
structure StabilityRow where
  target : String
  timestamp : ℚ
  uptime_percentage : ℚ
  stability_rating : ℚ
  disconnection_count : Nat
  avg_session_duration : ℚ
  monitoring_period : ℚ
deriving DecidableEq, Repr

/-- The SQLite database as a whole.  `next_id` models the session
`AUTOINCREMENT` counter. -/
structure Store where
  events : List Event
  sessions : List Session
  status : List TargetStatus
  stability_metrics : List StabilityRow
  next_id : Nat
deriving DecidableEq, Repr

def emptyStore : Store := ⟨[], [], [], [], 0⟩

/-- SQL `SELECT ... FROM connection_sessions WHERE target = ? AND
status = 'active'`. -/
def activeSessions (t : String) (st : Store) : List Session :=
  st.sessions.filter (fun s => s.target == t && s.status == "active")

/-- SQL `SELECT ... FROM target_status WHERE target = ?` (at most one row by
the UNIQUE constraint; `fetchone` returns the first). -/
def findStatus (t : String) (st : Store) : Option TargetStatus :=
  st.status.find? (fun r => r.target == t)

/-- SQL `UPDATE target_status SET ... WHERE id = ?` applied to the row
fetched for `t`: thanks to the UNIQUE constraint on `target` that row is
exactly the one whose `target` matches. -/
def statusUpdate (t : String) (f : TargetStatus → TargetStatus) (st : Store) : Store :=
  { st with status := st.status.map (fun r => if r.target == t then f r else r) }

/-- SQL `SELECT id, start_time FROM connection_sessions WHERE target = ? AND
status = 'active' ORDER BY start_time DESC LIMIT 1`. -/
def latestActive (t : String) (st : Store) : Option Session :=
  (activeSessions t st).foldl
    (fun acc s =>
      match acc with
      | none => some s
      | some a => if a.start_time < s.start_time then some s else some a)
    none

/-- First half of `ConnectionDatabase.record_connection`
(database.py lines 205-227): if no active session exists for the target,
insert a `connected` event and open a new session. -/
def openSession (t : String) (now : ℚ) (st : Store) : Store :=
  if (activeSessions t st).isEmpty then
    { st with
      events := st.events ++ [⟨t, now, "connected", none⟩],
      sessions := st.sessions ++ [⟨st.next_id, t, now, none, none, "active"⟩],
      next_id := st.next_id + 1 }
  else st

/-- The no-transition branch shared by both record operations
(database.py lines 252-262 and 343-353): `last_check` is stamped and the
consecutive duration becomes `(now - last_status_change) +
consecutive_status_duration`. -/
def tickUpdate (now : ℚ) (r : TargetStatus) : TargetStatus :=
  { r with
    last_check := now,
    consecutive_status_duration :=
      (now - r.last_status_change) + r.consecutive_status_duration }

/-- The disconnected-to-connected branch of `record_connection`
(database.py lines 242-251). -/
def connectEdgeUpdate (now : ℚ) (r : TargetStatus) : TargetStatus :=
  { r with
    is_connected := true,
    last_check := now,
    last_status_change := now,
    consecutive_status_duration := 0 }

/-- The connected-to-disconnected branch of `record_disconnection`
(database.py lines 328-342): the time since the last status change plus the
stored consecutive duration is folded into `total_uptime`. -/
def disconnectEdgeUpdate (now : ℚ) (r : TargetStatus) : TargetStatus :=
  { r with
    is_connected := false,
    last_check := now,
    last_status_change := now,
    consecutive_status_duration := 0,
    total_uptime := r.total_uptime +
      ((now - r.last_status_change) + r.consecutive_status_duration) }

/-- Second half of `ConnectionDatabase.record_connection`
(database.py lines 229-269): update or create the `target_status` row. -/
def connStatusUpdate (t : String) (now : ℚ) (st : Store) : Store :=
  match findStatus t st with
  | some row =>
    if row.is_connected then statusUpdate t (tickUpdate now) st
    else statusUpdate t (connectEdgeUpdate now) st
  | none =>
    { st with status := st.status ++
        [{ target := t, is_connected := true, last_check := now,
           last_status_change := now, consecutive_status_duration := 0,
           total_uptime := 0, total_downtime := 0 }] }

/-- `ConnectionDatabase.record_connection` (database.py lines 195-269). -/
def record_connection (t : String) (now : ℚ) (st : Store) : Store :=
  connStatusUpdate t now (openSession t now st)

/-- First half of `ConnectionDatabase.record_disconnection`
(database.py lines 284-313): close the latest active session and insert a
`disconnected` event carrying its duration. -/
def closeSession (t : String) (now : ℚ) (st : Store) : Store :=
  match latestActive t st with
  | some s =>
    { st with
      sessions := st.sessions.map (fun x =>
        if x.id == s.id then
          { x with end_time := some now, duration := some (now - s.start_time),
                   status := "ended" }
        else x),
      events := st.events ++ [⟨t, now, "disconnected", some (now - s.start_time)⟩] }
  | none => st

/-- Second half of `ConnectionDatabase.record_disconnection`
(database.py lines 315-360): update or create the `target_status` row. -/
def disconnStatusUpdate (t : String) (now : ℚ) (st : Store) : Store :=
  match findStatus t st with
  | some row =>
    if row.is_connected then statusUpdate t (disconnectEdgeUpdate now) st
    else statusUpdate t (tickUpdate now) st
  | none =>
    { st with status := st.status ++
        [{ target := t, is_connected := false, last_check := now,
           last_status_change := now, consecutive_status_duration := 0,
           total_uptime := 0, total_downtime := 0 }] }

/-- `ConnectionDatabase.record_disconnection` (database.py lines 271-360). -/
def record_disconnection (t : String) (now : ℚ) (st : Store) : Store :=
  disconnStatusUpdate t now (closeSession t now st)

/-- SQL `SELECT MIN(timestamp) FROM connection_events WHERE target = ?`
(`get_target_status`, database.py lines 415-421). -/
def first_seen (t : String) (st : Store) : Option ℚ :=
  (st.events.filter (fun e => e.target == t)).foldl
    (fun acc e =>
      match acc with
      | none => some e.timestamp
      | some m => some (min m e.timestamp))
    none

/-- SQL sum over ended sessions of the window
(`calculate_uptime`, database.py lines 563-572): `SELECT SUM(duration) FROM
connection_sessions WHERE target = ? AND status = 'ended' AND start_time >=
datetime('now', '-N days')`.  SQL `SUM` skips NULL durations and yields 0
(via the Python `or 0`) on the empty set. -/
def completedUptime (t : String) (now : ℚ) (days : Nat) (st : Store) : ℚ :=
  ((st.sessions.filter (fun s =>
      s.target == t && s.status == "ended" &&
        decide (now - (days : ℚ) * 86400 ≤ s.start_time))).filterMap
    (fun s => s.duration)).sum

/-- SQL `ROUND(SUM((JULIANDAY('now') - JULIANDAY(start_time)) * 86400))` over
active sessions of the window (`calculate_uptime`, database.py lines
574-586). -/
def activeTime (t : String) (now : ℚ) (days : Nat) (st : Store) : ℚ :=
  ((round (((st.sessions.filter (fun s =>
      s.target == t && s.status == "active" &&
        decide (now - (days : ℚ) * 86400 ≤ s.start_time))).map
    (fun s => now - s.start_time)).sum) : ℤ) : ℚ)

/-- `ConnectionDatabase.calculate_uptime` (database.py lines 552-592):
`(completed + active) / (days * 86400) * 100`, or 0 when the window is
empty. -/
def calculate_uptime (t : String) (now : ℚ) (days : Nat) (st : Store) : ℚ :=
  let total_time : ℚ := (days : ℚ) * 86400
  if 0 < total_time then
    (completedUptime t now days st + activeTime t now days st) / total_time * 100
  else 0

/-- `ConnectionDatabase.get_disconnection_count` with `period_hours = 24`
(database.py lines 436-454): count of `disconnected` events in the last 24
hours. -/
def disconnections24h (t : String) (now : ℚ) (st : Store) : Nat :=
  (st.events.filter (fun e =>
      e.target == t && e.event_type == "disconnected" &&
        decide (now - 86400 ≤ e.timestamp))).length

/-- The stability-rating block of `ConnectionDatabase.get_stability_metrics`
(database.py lines 611-616): start at 100, subtract the disconnection
penalty only when there was at least one disconnection, and subtract the
uptime penalty only when uptime is strictly below 99. -/
def stability_rating (disconnections : Nat) (uptime : ℚ) : ℚ :=
  let r1 : ℚ := 100
  let r2 : ℚ :=
    if 0 < disconnections then r1 - min ((disconnections : ℚ) * 10) 50 else r1
  if uptime < 99 then r2 - min ((100 - uptime) * 2) 50 else r2

/-- SQL `SELECT AVG(duration) FROM connection_sessions WHERE target = ? AND
status = 'ended' AND end_time >= datetime('now', '-24 hours')`
(`get_stability_metrics`, database.py lines 619-626); `AVG` averages the
non-NULL durations and the Python `or 0` maps the empty case to 0.  A NULL
`end_time` fails the SQL comparison and is excluded. -/
def avgSessionDuration24h (t : String) (now : ℚ) (st : Store) : ℚ :=
  let l := (st.sessions.filter (fun s =>
      s.target == t && s.status == "ended" &&
        (match s.end_time with
         | some e => decide (now - 86400 ≤ e)
         | none => false))).filterMap (fun s => s.duration)
  if l.isEmpty then 0 else l.sum / (l.length : ℚ)

/-- The `monitoring_period` field of `ConnectionDatabase.get_target_status`
(database.py lines 386-432): 0 when the target has no status row or no
events, otherwise `now - first_seen`. -/
def monitoringPeriod (t : String) (now : ℚ) (st : Store) : ℚ :=
  match findStatus t st with
  | none => 0
  | some _ =>
    match first_seen t st with
    | none => 0
    | some f => now - f

/-- The dictionary returned by `ConnectionDatabase.get_stability_metrics`
(database.py lines 640-648). -/
structure StabilityResult where
  uptime_percentage : ℚ
  stability_rating : ℚ
  disconnections_24h : Nat
  avg_session_duration : ℚ
  monitoring_period : ℚ
  status : String
deriving DecidableEq, Repr

/-- `ConnectionDatabase.get_stability_metrics` (database.py lines 594-648):
computes the metrics, INSERTs a snapshot row into `stability_metrics`, and
returns the result dictionary.  The pair is (returned dictionary, store
after the call). -/
def get_stability_metrics (t : String) (now : ℚ) (st : Store) :
    StabilityResult × Store :=
  let uptime := calculate_uptime t now 30 st
  let d := disconnections24h t now st
  let rating := stability_rating d uptime
  let avg := avgSessionDuration24h t now st
  let mp := monitoringPeriod t now st
  (⟨uptime, rating, d, avg, mp, if 80 ≤ rating then "stable" else "unstable"⟩,
   { st with stability_metrics := st.stability_metrics ++ [⟨t, now, uptime, rating, d, avg, mp⟩] })

/-- The SQL `CASE WHEN end_time IS NULL THEN ROUND((JULIANDAY('now') -
JULIANDAY(start_time)) * 86400) ELSE duration END` of
`ConnectionDatabase.get_connection_stats` (database.py lines 486-497): an
unclosed session's duration is recomputed live from `now`, a closed
session's duration is the stored column. -/
def reportedDuration (now : ℚ) (s : Session) : Option ℚ :=
  match s.end_time with
  | none => some ((round (now - s.start_time) : ℤ) : ℚ)
  | some _ => s.duration

/-- The `current_session` entry of `ConnectionDatabase.get_connection_stats`
(database.py lines 486-504): start time and reported duration of the latest
active session, if any. -/
def current_session (t : String) (now : ℚ) (st : Store) : Option (ℚ × Option ℚ) :=
  (latestActive t st).map (fun s => (s.start_time, reportedDuration now s))

/-- The `_check_connection` edge-triggered driver
(connection.py lines 146-216) restricted to its persistence effect: given
the previous in-memory `is_connected` flag and one probe result, call
`record_connection` only on a disconnected-to-connected edge and
`record_disconnection` only on the reverse edge, and remember the probe
result.  The accumulator is (is_connected, store); the input is
(probe result, probe time). -/
def mstep (t : String) (acc : Bool × Store) (p : Bool × ℚ) : Bool × Store :=
  (p.1,
   if p.1 && !acc.1 then record_connection t p.2 acc.2
   else if !p.1 && acc.1 then record_disconnection t p.2 acc.2
   else acc.2)

/-- Run the monitor loop over a whole probe sequence starting from a fresh
monitor (`is_connected = False`, connection.py line 133) and an empty
database. -/
def mrun (t : String) (ps : List (Bool × ℚ)) : Bool × Store :=
  ps.foldl (mstep t) (false, emptyStore)

/-- Count of events of one type for a target. -/
def eventCount (t : String) (ty : String) (st : Store) : Nat :=
  (st.events.filter (fun e => e.target == t && e.event_type == ty)).length

/-! ### Basic frame lemmas: which tables each sub-operation touches -/

theorem statusUpdate_sessions (t : String) (f : TargetStatus → TargetStatus)
    (st : Store) : (statusUpdate t f st).sessions = st.sessions := rfl

theorem statusUpdate_events (t : String) (f : TargetStatus → TargetStatus)
    (st : Store) : (statusUpdate t f st).events = st.events := rfl

theorem connStatusUpdate_sessions (t : String) (now : ℚ) (st : Store) :
    (connStatusUpdate t now st).sessions = st.sessions := by
  unfold connStatusUpdate
  split
  · split <;> rfl
  · rfl

theorem connStatusUpdate_events (t : String) (now : ℚ) (st : Store) :
    (connStatusUpdate t now st).events = st.events := by
  unfold connStatusUpdate
  split
  · split <;> rfl
  · rfl

theorem disconnStatusUpdate_sessions (t : String) (now : ℚ) (st : Store) :
    (disconnStatusUpdate t now st).sessions = st.sessions := by
  unfold disconnStatusUpdate
  split
  · split <;> rfl
  · rfl

theorem disconnStatusUpdate_events (t : String) (now : ℚ) (st : Store) :
    (disconnStatusUpdate t now st).events = st.events := by
  unfold disconnStatusUpdate
  split
  · split <;> rfl
  · rfl

theorem openSession_status (t : String) (now : ℚ) (st : Store) :
    (openSession t now st).status = st.status := by
  unfold openSession
  split <;> rfl

theorem closeSession_status (t : String) (now : ℚ) (st : Store) :
    (closeSession t now st).status = st.status := by
  unfold closeSession
  split <;> rfl

theorem findStatus_openSession (t t' : String) (now : ℚ) (st : Store) :
    findStatus t' (openSession t now st) = findStatus t' st := by
  unfold findStatus
  rw [openSession_status]

theorem findStatus_closeSession (t t' : String) (now : ℚ) (st : Store) :
    findStatus t' (closeSession t now st) = findStatus t' st := by
  unfold findStatus
  rw [closeSession_status]

theorem openSession_of_empty (t : String) (now : ℚ) (st : Store)
    (h : (activeSessions t st).isEmpty = true) :
    openSession t now st =
      { st with
        events := st.events ++ [⟨t, now, "connected", none⟩],
        sessions := st.sessions ++ [⟨st.next_id, t, now, none, none, "active"⟩],
        next_id := st.next_id + 1 } := by
  unfold openSession
  rw [h]
  rfl

theorem openSession_of_nonempty (t : String) (now : ℚ) (st : Store)
    (h : (activeSessions t st).isEmpty = false) :
    openSession t now st = st := by
  unfold openSession
  rw [h]
  rfl

theorem latestActive_of_nil (t : String) (st : Store)
    (h : activeSessions t st = []) : latestActive t st = none := by
  unfold latestActive
  rw [h]
  rfl

theorem latestActive_of_singleton (t : String) (st : Store) (a : Session)
    (h : activeSessions t st = [a]) : latestActive t st = some a := by
  unfold latestActive
  rw [h]
  rfl

theorem closeSession_of_none (t : String) (now : ℚ) (st : Store)
    (h : latestActive t st = none) : closeSession t now st = st := by
  unfold closeSession
  rw [h]

/-! ### Session-table shape of the record operations -/

theorem record_connection_sessions (t : String) (now : ℚ) (st : Store) :
    (record_connection t now st).sessions =
      if (activeSessions t st).isEmpty then
        st.sessions ++ [⟨st.next_id, t, now, none, none, "active"⟩]
      else st.sessions := by
  unfold record_connection
  rw [connStatusUpdate_sessions]
  unfold openSession
  split <;> rfl

theorem record_connection_events (t : String) (now : ℚ) (st : Store) :
    (record_connection t now st).events =
      if (activeSessions t st).isEmpty then
        st.events ++ [⟨t, now, "connected", none⟩]
      else st.events := by
  unfold record_connection
  rw [connStatusUpdate_events]
  unfold openSession
  split <;> rfl

/-- Closing a session can only shrink the set of active sessions: the map in
`closeSession` either leaves a row alone or marks it `ended`. -/
theorem closeSession_active_le (t : String) (now : ℚ) (st : Store) :
    (activeSessions t (closeSession t now st)).length ≤
      (activeSessions t st).length := by
  unfold closeSession
  cases h : latestActive t st with
  | none => exact le_refl _
  | some s =>
    show (List.filter _ (st.sessions.map _)).length ≤ (List.filter _ st.sessions).length
    rw [← List.countP_eq_length_filter, ← List.countP_eq_length_filter, List.countP_map]
    apply List.countP_mono_left
    intro x _ hpx
    by_cases hid : (x.id == s.id) = true
    · exfalso
      simp only [hid, if_true, Function.comp] at hpx
      have hfalse : (("ended" == "active") : Bool) = false := rfl
      simp [hfalse] at hpx
    · simpa [hid, Function.comp] using hpx

/-! ### Behaviour of the target-status lookup under the update operations -/

theorem find?_map_update (t : String) (f : TargetStatus → TargetStatus)
    (hf : ∀ r, (f r).target = r.target) (l : List TargetStatus) :
    (l.map (fun r => if r.target == t then f r else r)).find?
        (fun r => r.target == t) =
      (l.find? (fun r => r.target == t)).map f := by
  induction l with
  | nil => rfl
  | cons a l ih =>
    simp only [List.map_cons, List.find?_cons]
    cases hb : (a.target == t) with
    | true =>
      have hfa : ((f a).target == t) = true := by rw [hf a]; exact hb
      rw [show (if (true : Bool) = true then f a else a) = f a from if_pos rfl, hfa]
      rfl
    | false =>
      rw [show (if (false : Bool) = true then f a else a) = a from
            if_neg Bool.false_ne_true,
          hb]
      exact ih

theorem findStatus_statusUpdate (t : String) (f : TargetStatus → TargetStatus)
    (hf : ∀ r, (f r).target = r.target) (st : Store) :
    findStatus t (statusUpdate t f st) = (findStatus t st).map f :=
  find?_map_update t f hf st.status

theorem findStatus_append_new (t : String) (st : Store) (r : TargetStatus)
    (h : findStatus t st = none) (hr : r.target = t) :
    findStatus t { st with status := st.status ++ [r] } = some r := by
  unfold findStatus at h ⊢
  rw [List.find?_append, h, Option.none_or, List.find?_cons_of_pos]
  simp [hr]

/-- After `connStatusUpdate`, the target always has a status row and its
`last_check` column is the current timestamp. -/
theorem connStatusUpdate_lastCheck (t : String) (now : ℚ) (st : Store) :
    ∃ r, findStatus t (connStatusUpdate t now st) = some r ∧
      r.last_check = now := by
  unfold connStatusUpdate
  cases h : findStatus t st with
  | some row =>
    simp only [h]
    by_cases hc : row.is_connected = true
    · rw [if_pos hc, findStatus_statusUpdate t (tickUpdate now) (fun r => rfl) st, h]
      exact ⟨_, rfl, rfl⟩
    · rw [if_neg hc, findStatus_statusUpdate t (connectEdgeUpdate now) (fun r => rfl) st, h]
      exact ⟨_, rfl, rfl⟩
  | none =>
    simp only [h]
    exact ⟨_, findStatus_append_new t st _ h rfl, rfl⟩

/-- After `disconnStatusUpdate`, the target always has a status row and its
`last_check` column is the current timestamp. -/
theorem disconnStatusUpdate_lastCheck (t : String) (now : ℚ) (st : Store) :
    ∃ r, findStatus t (disconnStatusUpdate t now st) = some r ∧
      r.last_check = now := by
  unfold disconnStatusUpdate
  cases h : findStatus t st with
  | some row =>
    simp only [h]
    by_cases hc : row.is_connected = true
    · rw [if_pos hc, findStatus_statusUpdate t (disconnectEdgeUpdate now) (fun r => rfl) st, h]
      exact ⟨_, rfl, rfl⟩
    · rw [if_neg hc, findStatus_statusUpdate t (tickUpdate now) (fun r => rfl) st, h]
      exact ⟨_, rfl, rfl⟩
  | none =>
    simp only [h]
    exact ⟨_, findStatus_append_new t st _ h rfl, rfl⟩

/-! ### The monitor-loop invariant behind the event-count property -/

theorem length_filter_append_one {α : Type} (p : α → Bool) (l : List α) (x : α) :
    ((l ++ [x]).filter p).length =
      (l.filter p).length + (if p x then 1 else 0) := by
  rw [List.filter_append]
  by_cases h : p x = true <;> simp [List.filter, h]

/-- After an opening `record_connection` the target has exactly the one new
active session. -/
theorem activeSessions_record_connection_empty (t : String) (now : ℚ)
    (st : Store) (h : activeSessions t st = []) :
    activeSessions t (record_connection t now st) =
      [⟨st.next_id, t, now, none, none, "active"⟩] := by
  have he : (activeSessions t st).isEmpty = true := by rw [h]; rfl
  unfold activeSessions
  rw [record_connection_sessions, if_pos he, List.filter_append]
  show activeSessions t st ++ _ = _
  rw [h]
  simp [List.filter]

/-- Closing the single active session leaves no active session. -/
theorem closeSession_active_nil (t : String) (now : ℚ) (st : Store)
    (a : Session) (h : activeSessions t st = [a]) :
    activeSessions t (closeSession t now st) = [] := by
  have hla : latestActive t st = some a := latestActive_of_singleton t st a h
  unfold closeSession
  rw [hla]
  show List.filter _ (st.sessions.map _) = []
  rw [List.filter_eq_nil_iff]
  intro x hx
  obtain ⟨y, hy, hxy⟩ := List.mem_map.mp hx
  by_cases hid : (y.id == a.id) = true
  · rw [← hxy, if_pos hid]
    have hfalse : (("ended" == "active") : Bool) = false := rfl
    simp [hfalse]
  · rw [← hxy, if_neg hid]
    intro hp
    have hmem : y ∈ activeSessions t st := List.mem_filter.mpr ⟨hy, hp⟩
    rw [h, List.mem_singleton] at hmem
    exact hid (by rw [hmem]; exact beq_self_eq_true a.id)

/-- The invariant maintained by the edge-triggered monitor loop: the
in-memory flag matches the number of active sessions, and the event counts
differ by exactly the flag. -/
def MonInv (t : String) (m : Bool) (st : Store) : Prop :=
  (activeSessions t st).length = (if m then 1 else 0) ∧
  eventCount t "connected" st =
    eventCount t "disconnected" st + (if m then 1 else 0)

theorem mstep_inv (t : String) (acc : Bool × Store) (p : Bool × ℚ)
    (h : MonInv t acc.1 acc.2) : MonInv t (mstep t acc p).1 (mstep t acc p).2 := by
  obtain ⟨h1, h2⟩ := h
  unfold mstep
  cases hp : p.1 <;> cases hm : acc.1 <;> rw [hm] at h1 h2
  case false.false =>
    exact ⟨h1, h2⟩
  case false.true =>
    rw [if_pos rfl] at h1 h2
    -- connected-to-disconnected edge: record_disconnection runs
    obtain ⟨a, ha⟩ := List.length_eq_one.mp h1
    constructor
    · show (activeSessions t (record_disconnection t p.2 acc.2)).length = 0
      unfold record_disconnection
      have hs : (activeSessions t (disconnStatusUpdate t p.2 (closeSession t p.2 acc.2))) =
          activeSessions t (closeSession t p.2 acc.2) := by
        unfold activeSessions
        rw [disconnStatusUpdate_sessions]
      rw [hs, closeSession_active_nil t p.2 acc.2 a ha]
      rfl
    · show eventCount t "connected" (record_disconnection t p.2 acc.2) =
        eventCount t "disconnected" (record_disconnection t p.2 acc.2) + 0
      have hla : latestActive t acc.2 = some a := latestActive_of_singleton t acc.2 a ha
      have hev : (record_disconnection t p.2 acc.2).events =
          acc.2.events ++ [⟨t, p.2, "disconnected", some (p.2 - a.start_time)⟩] := by
        unfold record_disconnection
        rw [disconnStatusUpdate_events]
        unfold closeSession
        rw [hla]
      unfold eventCount
      rw [hev, length_filter_append_one, length_filter_append_one]
      have hc : ((⟨t, p.2, "disconnected", some (p.2 - a.start_time)⟩ : Event).target == t &&
          (⟨t, p.2, "disconnected", some (p.2 - a.start_time)⟩ : Event).event_type == "connected") = false := by
        have : (("disconnected" == "connected") : Bool) = false := rfl
        simp [this]
      have hd : ((⟨t, p.2, "disconnected", some (p.2 - a.start_time)⟩ : Event).target == t &&
          (⟨t, p.2, "disconnected", some (p.2 - a.start_time)⟩ : Event).event_type == "disconnected") = true := by
        simp
      rw [hc, hd, if_neg (by simp), if_pos rfl]
      unfold eventCount at h2
      omega
  case true.false =>
    -- disconnected-to-connected edge: record_connection runs
    rw [if_neg Bool.false_ne_true] at h1 h2
    have ha : activeSessions t acc.2 = [] := List.length_eq_zero.mp h1
    constructor
    · show (activeSessions t (record_connection t p.2 acc.2)).length = 1
      rw [activeSessions_record_connection_empty t p.2 acc.2 ha]
      rfl
    · show eventCount t "connected" (record_connection t p.2 acc.2) =
        eventCount t "disconnected" (record_connection t p.2 acc.2) + 1
      have he : (activeSessions t acc.2).isEmpty = true := by rw [ha]; rfl
      have hev : (record_connection t p.2 acc.2).events =
          acc.2.events ++ [⟨t, p.2, "connected", none⟩] := by
        rw [record_connection_events, if_pos he]
      unfold eventCount
      rw [hev, length_filter_append_one, length_filter_append_one]
      have hc : ((⟨t, p.2, "connected", none⟩ : Event).target == t &&
          (⟨t, p.2, "connected", none⟩ : Event).event_type == "connected") = true := by
        simp
      have hd : ((⟨t, p.2, "connected", none⟩ : Event).target == t &&
          (⟨t, p.2, "connected", none⟩ : Event).event_type == "disconnected") = false := by
        have : (("connected" == "disconnected") : Bool) = false := rfl
        simp [this]
      rw [hc, hd, if_pos rfl, if_neg (by simp)]
      unfold eventCount at h2
      omega
  case true.true =>
    exact ⟨h1, h2⟩

theorem foldl_mstep_inv (t : String) (ps : List (Bool × ℚ)) :
    ∀ acc, MonInv t acc.1 acc.2 →
      MonInv t (ps.foldl (mstep t) acc).1 (ps.foldl (mstep t) acc).2 := by
  induction ps with
  | nil => exact fun acc h => h
  | cons p ps ih => exact fun acc h => ih _ (mstep_inv t acc p h)

theorem mrun_inv (t : String) (ps : List (Bool × ℚ)) :
    MonInv t (mrun t ps).1 (mrun t ps).2 :=
  foldl_mstep_inv t ps (false, emptyStore) ⟨rfl, rfl⟩

/-! ### Concrete stores used as inputs of witnesses and counterexamples -/

/-- An open session used by concrete witnesses. -/
def sess0 : Session := ⟨0, "x", 0, none, none, "active"⟩

/-- A store holding one target with one open session, as produced by a
single connect. -/
def activeStore : Store :=
  ⟨[⟨"x", 0, "connected", none⟩], [sess0], [⟨"x", true, 0, 0, 0, 0, 0⟩], [], 1⟩

/-- A store with one closed hour-long session for a target first seen two
hours before `now = 7200`. -/
def c7store : Store :=
  ⟨[⟨"x", 0, "connected", none⟩, ⟨"x", 3600, "disconnected", some 3600⟩],
   [⟨0, "x", 0, some 3600, some 3600, "ended"⟩],
   [⟨"x", false, 3600, 3600, 0, 3600, 0⟩], [], 1⟩

/-- A store whose target-status row carries `last_check = 100`, used to feed
the stale probe time 50. -/
def c10store : Store := ⟨[], [], [⟨"x", false, 100, 100, 0, 0, 0⟩], [], 0⟩

/-- Modelled from the spec (§4.4): the claimed stability-rating formula
`clamp(100 - min(d*10, 50) - min((100-u)*2, 50), 0, 100)`, stated for
comparison with the `stability_rating` computed by the code. -/
def ratingSpecFormula (d : Nat) (u : ℚ) : ℚ :=
  max 0 (min 100 (100 - min ((d : ℚ) * 10) 50 - min ((100 - u) * 2) 50))

/-- Modelled from the spec (§4.4): uptime over the requested window with
`total_monitored_time = min(now - first_seen, window)`, stated for
comparison with the `calculate_uptime` computed by the code. -/
def uptimeSpecFormula (t : String) (now : ℚ) (days : Nat) (st : Store) : ℚ :=
  match first_seen t st with
  | none => 0
  | some f =>
    let monitored := min (now - f) ((days : ℚ) * 86400)
    if 0 < monitored then
      (completedUptime t now days st + activeTime t now days st) / monitored * 100
    else 0

/-! ### Claim theorems -/

/-- C1: the spec claims `total_uptime + total_downtime +
consecutive_status_duration` equals the time elapsed since `first_seen`
after every operation.  The code never writes `total_downtime`, so the
invariant fails: after connect at time 0, disconnect at 60 and reconnect at
120, the accumulators sum to 60 while `now - first_seen = 120 - 0 = 120`.
This theorem evaluates the code at that failing input. -/
theorem C1_time_accounting_fails_eval :
    (findStatus "x" (record_connection "x" 120 (record_disconnection "x" 60
        (record_connection "x" 0 emptyStore)))).map
      (fun r => r.total_uptime + r.total_downtime + r.consecutive_status_duration) =
        some 60 ∧
    first_seen "x" (record_connection "x" 120 (record_disconnection "x" 60
        (record_connection "x" 0 emptyStore))) = some 0 := by
  refine ⟨?_, ?_⟩ <;>
  · simp [record_connection, record_disconnection, openSession, closeSession,
          connStatusUpdate, disconnStatusUpdate, findStatus, statusUpdate,
          activeSessions, emptyStore, latestActive, tickUpdate,
          connectEdgeUpdate, disconnectEdgeUpdate, first_seen]
    try norm_num

/-- C2: at most one session is `active` per target at any time:
`record_connection` preserves the at-most-one-active bound and opens nothing
when an active session exists, and `record_disconnection` with no active
session changes neither the session nor the event table. -/
theorem C2_single_active_session (t : String) (now : ℚ) (st : Store) :
    ((activeSessions t st).length ≤ 1 →
      (activeSessions t (record_connection t now st)).length ≤ 1 ∧
      (activeSessions t (record_disconnection t now st)).length ≤ 1) ∧
    ((activeSessions t st).isEmpty = false →
      (record_connection t now st).sessions = st.sessions ∧
      (record_connection t now st).events = st.events) ∧
    (activeSessions t st = [] →
      (record_disconnection t now st).sessions = st.sessions ∧
      (record_disconnection t now st).events = st.events) := by
  refine ⟨fun h => ⟨?_, ?_⟩, fun h => ⟨?_, ?_⟩, fun h => ⟨?_, ?_⟩⟩
  · unfold activeSessions
    rw [record_connection_sessions]
    by_cases he : (activeSessions t st).isEmpty = true
    · rw [if_pos he, length_filter_append_one]
      have h0 : (activeSessions t st).length = 0 := by
        rw [List.isEmpty_iff.mp he]
        rfl
      show (activeSessions t st).length + _ ≤ 1
      rw [h0]
      split <;> norm_num
    · rw [if_neg he]
      exact h
  · unfold record_disconnection
    have hs : activeSessions t (disconnStatusUpdate t now (closeSession t now st)) =
        activeSessions t (closeSession t now st) := by
      unfold activeSessions
      rw [disconnStatusUpdate_sessions]
    rw [hs]
    exact le_trans (closeSession_active_le t now st) h
  · unfold record_connection
    rw [connStatusUpdate_sessions, openSession_of_nonempty t now st h]
  · unfold record_connection
    rw [connStatusUpdate_events, openSession_of_nonempty t now st h]
  · unfold record_disconnection
    rw [disconnStatusUpdate_sessions,
      closeSession_of_none t now st (latestActive_of_nil t st h)]
  · unfold record_disconnection
    rw [disconnStatusUpdate_events,
      closeSession_of_none t now st (latestActive_of_nil t st h)]

/-- Witness for C2: the hypotheses hold and the conclusions follow at the
concrete stores `activeStore` (one active session) and `emptyStore`. -/
theorem C2_single_active_session_witness :
    ((activeSessions "x" activeStore).length ≤ 1 ∧
      (activeSessions "x" (record_connection "x" 5 activeStore)).length ≤ 1 ∧
      (activeSessions "x" (record_disconnection "x" 5 activeStore)).length ≤ 1) ∧
    ((activeSessions "x" activeStore).isEmpty = false ∧
      (record_connection "x" 5 activeStore).sessions = activeStore.sessions ∧
      (record_connection "x" 5 activeStore).events = activeStore.events) ∧
    (activeSessions "x" emptyStore = [] ∧
      (record_disconnection "x" 5 emptyStore).sessions = emptyStore.sessions ∧
      (record_disconnection "x" 5 emptyStore).events = emptyStore.events) := by
  have ha : activeSessions "x" activeStore = [sess0] := rfl
  have hlen : (activeSessions "x" activeStore).length ≤ 1 := by rw [ha]; norm_num
  have he : (activeSessions "x" activeStore).isEmpty = false := by rw [ha]; rfl
  have hn : activeSessions "x" emptyStore = [] := rfl
  refine ⟨⟨hlen, ?_, ?_⟩, ⟨he, ?_, ?_⟩, ⟨hn, ?_, ?_⟩⟩
  · exact ((C2_single_active_session "x" 5 activeStore).1 hlen).1
  · exact ((C2_single_active_session "x" 5 activeStore).1 hlen).2
  · exact ((C2_single_active_session "x" 5 activeStore).2.1 he).1
  · exact ((C2_single_active_session "x" 5 activeStore).2.1 he).2
  · exact ((C2_single_active_session "x" 5 emptyStore).2.2 hn).1
  · exact ((C2_single_active_session "x" 5 emptyStore).2.2 hn).2

/-- C3 counterexample: the claim says the uptime penalty applies whenever
uptime is below 100, i.e. the rating equals the clamp formula for every
uptime in [0,100].  At uptime exactly 99 (with no disconnections) the code
skips the penalty (`if uptime < 99`) and returns 100, while the claimed
formula yields 98. -/
theorem C3_rating_counterexample :
    stability_rating 0 99 = 100 ∧ ratingSpecFormula 0 99 = 98 ∧
    stability_rating 0 99 ≠ ratingSpecFormula 0 99 := by
  norm_num [stability_rating, ratingSpecFormula]

/-- C3 amended: the rating returned by `get_stability_metrics` equals
100 minus the disconnection penalty (applied only when the count is
positive) minus the uptime penalty `min((100-u)*2, 50)` applied only when
uptime is strictly below 99 (not below 100); the result always lies in
[0,100], so the claimed clamp is vacuous. -/
theorem C3_rating_amended (t : String) (now : ℚ) (st : Store) (d : Nat) (u : ℚ) :
    (get_stability_metrics t now st).1.stability_rating =
      stability_rating (disconnections24h t now st) (calculate_uptime t now 30 st) ∧
    stability_rating d u =
      100 - (if 0 < d then min ((d : ℚ) * 10) 50 else 0) -
        (if u < 99 then min ((100 - u) * 2) 50 else 0) ∧
    0 ≤ stability_rating d u ∧ stability_rating d u ≤ 100 := by
  have heq : stability_rating d u =
      100 - (if 0 < d then min ((d : ℚ) * 10) 50 else 0) -
        (if u < 99 then min ((100 - u) * 2) 50 else 0) := by
    unfold stability_rating
    by_cases hd : 0 < d <;> by_cases hu : u < 99 <;>
      simp only [hd, hu, if_true, if_false] <;> ring
  have hp1 : 0 ≤ (if 0 < d then min ((d : ℚ) * 10) 50 else 0) := by
    by_cases hd : 0 < d
    · rw [if_pos hd]
      exact le_min (by positivity) (by norm_num)
    · rw [if_neg hd]
  have hq1 : (if 0 < d then min ((d : ℚ) * 10) 50 else 0) ≤ 50 := by
    by_cases hd : 0 < d
    · rw [if_pos hd]
      exact min_le_right _ _
    · rw [if_neg hd]
      norm_num
  have hp2 : 0 ≤ (if u < 99 then min ((100 - u) * 2) 50 else 0) := by
    by_cases hu : u < 99
    · rw [if_pos hu]
      exact le_min (by nlinarith) (by norm_num)
    · rw [if_neg hu]
  have hq2 : (if u < 99 then min ((100 - u) * 2) 50 else 0) ≤ 50 := by
    by_cases hu : u < 99
    · rw [if_pos hu]
      exact min_le_right _ _
    · rw [if_neg hu]
      norm_num
  refine ⟨rfl, heq, ?_, ?_⟩
  · rw [heq]
    linarith
  · rw [heq]
    linarith

/-- C4: over every probe sequence processed edge-triggered from an empty
store, the stored `connected` events equal the `disconnected` events when
the monitor ends disconnected, and exceed them by exactly one when it ends
connected. -/
theorem C4_event_count_balance (t : String) (ps : List (Bool × ℚ)) :
    eventCount t "connected" (mrun t ps).2 =
      eventCount t "disconnected" (mrun t ps).2 +
        (if (mrun t ps).1 then 1 else 0) :=
  (mrun_inv t ps).2

/-- C5: the spec claims `record_disconnection` closes the session with
duration `now - start_time`, emits a `disconnected` event with that
duration, and adds the just-elapsed connected duration to `total_uptime`.
After connect at 0, a no-edge connected tick at 60 and disconnect at 120
the session and event both carry 120 as required, but the code adds
`(now - last_status_change) + consecutive_status_duration = 120 + 60 = 180`
to `total_uptime` instead of the elapsed 120.  This theorem evaluates the
code at that failing input. -/
theorem C5_disconnect_uptime_fold_eval :
    (record_disconnection "x" 120 (record_connection "x" 60
        (record_connection "x" 0 emptyStore))).sessions =
      [⟨0, "x", 0, some 120, some 120, "ended"⟩] ∧
    (record_disconnection "x" 120 (record_connection "x" 60
        (record_connection "x" 0 emptyStore))).events.filterMap
      (fun e => if e.event_type == "disconnected" then some e.session_duration else none) =
        [some 120] ∧
    (findStatus "x" (record_disconnection "x" 120 (record_connection "x" 60
        (record_connection "x" 0 emptyStore)))).map (fun r => r.total_uptime) =
      some 180 := by
  refine ⟨?_, ?_, ?_⟩ <;>
  · simp [record_connection, record_disconnection, openSession, closeSession,
          connStatusUpdate, disconnStatusUpdate, findStatus, statusUpdate,
          activeSessions, emptyStore, latestActive, tickUpdate,
          connectEdgeUpdate, disconnectEdgeUpdate, List.filterMap]
    try norm_num

/-- C6: the spec claims a no-edge tick adds exactly `now - last_check` to
`consecutive_status_duration`.  The code adds `now - last_status_change`
instead: after connect at 0, a tick at 60 leaves `last_check = 60` and
duration 60, and the tick at 120 should add `120 - 60 = 60` giving 120, but
the code stores `(120 - 0) + 60 = 180`.  This theorem evaluates the code at
that failing input. -/
theorem C6_no_edge_tick_overcount_eval :
    (findStatus "x" (record_connection "x" 60 (record_connection "x" 0 emptyStore))).map
      (fun r => (r.last_check, r.consecutive_status_duration)) = some (60, 60) ∧
    (findStatus "x" (record_connection "x" 120 (record_connection "x" 60
        (record_connection "x" 0 emptyStore)))).map
      (fun r => r.consecutive_status_duration) = some 180 := by
  refine ⟨?_, ?_⟩ <;>
  · simp [record_connection, openSession, connStatusUpdate, findStatus,
          statusUpdate, activeSessions, emptyStore, tickUpdate, connectEdgeUpdate]
    try norm_num

/-- C7 counterexample: the claim says `calculate_uptime` divides by
`min(now - first_seen, window)`.  On a store first seen 7200 s ago with one
closed 3600 s session and a 30-day window, that formula gives 50 while the
code divides by the whole window and returns 5/36 of a percent. -/
theorem C7_uptime_counterexample :
    calculate_uptime "x" 7200 30 c7store = 5 / 36 ∧
    uptimeSpecFormula "x" 7200 30 c7store = 50 ∧
    calculate_uptime "x" 7200 30 c7store ≠ uptimeSpecFormula "x" 7200 30 c7store := by
  have hcu : completedUptime "x" 7200 30 c7store = 3600 := by
    simp only [completedUptime, c7store]
    norm_num [List.filter, List.filterMap]
  have hat : activeTime "x" 7200 30 c7store = 0 := by
    simp only [activeTime, c7store]
    norm_num [List.filter, show (("ended" == "active") : Bool) = false from rfl]
  have hfs : first_seen "x" c7store = some 0 := by
    simp [first_seen, c7store, List.filter]
  refine ⟨?_, ?_, ?_⟩
  · unfold calculate_uptime
    rw [hcu, hat]
    norm_num
  · unfold uptimeSpecFormula
    rw [hfs, hcu, hat]
    norm_num
  · unfold calculate_uptime uptimeSpecFormula
    rw [hfs, hcu, hat]
    norm_num

/-- C7 amended: `calculate_uptime` divides the connected time of sessions
started inside the window (ended ones by stored duration, active ones live)
by the full window `days * 86400` regardless of `first_seen`; whenever that
connected time is nonnegative and at most the window, the result lies in
[0,100]. -/
theorem C7_uptime_amended (t : String) (now : ℚ) (days : Nat) (st : Store)
    (h0 : 0 ≤ completedUptime t now days st)
    (h1 : 0 ≤ activeTime t now days st)
    (h2 : completedUptime t now days st + activeTime t now days st ≤
      (days : ℚ) * 86400) :
    calculate_uptime t now days st =
      (if 0 < (days : ℚ) * 86400 then
        (completedUptime t now days st + activeTime t now days st) /
          ((days : ℚ) * 86400) * 100
      else 0) ∧
    0 ≤ calculate_uptime t now days st ∧ calculate_uptime t now days st ≤ 100 := by
  refine ⟨rfl, ?_, ?_⟩ <;> unfold calculate_uptime
  · by_cases hT : 0 < (days : ℚ) * 86400
    · rw [if_pos hT]
      positivity
    · rw [if_neg hT]
  · by_cases hT : 0 < (days : ℚ) * 86400
    · rw [if_pos hT]
      have hdiv : (completedUptime t now days st + activeTime t now days st) /
          ((days : ℚ) * 86400) ≤ 1 := (div_le_one hT).mpr h2
      nlinarith
    · rw [if_neg hT]
      norm_num

/-- Witness for C7 amended: at `c7store` with a 30-day window the connected
time is 3600 + 0, the hypotheses hold, and the result is in [0,100]. -/
theorem C7_uptime_amended_witness :
    (0 ≤ completedUptime "x" 7200 30 c7store ∧
      0 ≤ activeTime "x" 7200 30 c7store ∧
      completedUptime "x" 7200 30 c7store + activeTime "x" 7200 30 c7store ≤
        (30 : ℚ) * 86400) ∧
    (0 ≤ calculate_uptime "x" 7200 30 c7store ∧
      calculate_uptime "x" 7200 30 c7store ≤ 100) := by
  have hcu : completedUptime "x" 7200 30 c7store = 3600 := by
    simp only [completedUptime, c7store]
    norm_num [List.filter, List.filterMap]
  have hat : activeTime "x" 7200 30 c7store = 0 := by
    simp only [activeTime, c7store]
    norm_num [List.filter, show (("ended" == "active") : Bool) = false from rfl]
  have h0 : 0 ≤ completedUptime "x" 7200 30 c7store := by rw [hcu]; norm_num
  have h1 : 0 ≤ activeTime "x" 7200 30 c7store := by rw [hat]
  have h2 : completedUptime "x" 7200 30 c7store + activeTime "x" 7200 30 c7store ≤
      (30 : ℚ) * 86400 := by rw [hcu, hat]; norm_num
  exact ⟨⟨h0, h1, h2⟩, (C7_uptime_amended "x" 7200 30 c7store h0 h1 h2).2⟩

/-- C8 counterexample: the claim says `get_stability_metrics` modifies no
table.  Even on the empty store it appends one snapshot row to
`stability_metrics`, so the store after the call differs. -/
theorem C8_purity_counterexample :
    (get_stability_metrics "x" 0 emptyStore).2 ≠ emptyStore := by
  intro h
  have hlen := congrArg (fun s => s.stability_metrics.length) h
  simp [get_stability_metrics, emptyStore] at hlen

/-- C8 amended: `get_stability_metrics` leaves the events, sessions and
target-status tables unchanged, appends exactly one snapshot row to
`stability_metrics`, and since nothing it computes reads that table, a
second call on the resulting store returns the same result. -/
theorem C8_snapshot_frame (t : String) (now : ℚ) (st : Store) :
    ((get_stability_metrics t now st).2.events = st.events ∧
     (get_stability_metrics t now st).2.sessions = st.sessions ∧
     (get_stability_metrics t now st).2.status = st.status) ∧
    (get_stability_metrics t now st).2.stability_metrics =
      st.stability_metrics ++
        [⟨t, now, calculate_uptime t now 30 st,
          (get_stability_metrics t now st).1.stability_rating,
          disconnections24h t now st, avgSessionDuration24h t now st,
          monitoringPeriod t now st⟩] ∧
    (get_stability_metrics t now (get_stability_metrics t now st).2).1 =
      (get_stability_metrics t now st).1 :=
  ⟨⟨rfl, rfl, rfl⟩, rfl, rfl⟩

/-- C9: `get_connection_stats` reports the active session's duration live as
the rounded `now - start_time`, while any closed session's reported duration
is the stored column, independent of `now`. -/
theorem C9_live_vs_stored_duration (t : String) (now : ℚ) (st : Store)
    (s : Session) (h : latestActive t st = some s) (he : s.end_time = none) :
    current_session t now st =
      some (s.start_time, some ((round (now - s.start_time) : ℤ) : ℚ)) ∧
    ∀ x : Session, x.end_time ≠ none →
      reportedDuration now x = x.duration ∧
      ∀ now' : ℚ, reportedDuration now' x = x.duration := by
  constructor
  · simp only [current_session, h, Option.map_some']
    unfold reportedDuration
    rw [he]
  · intro x hx
    cases hex : x.end_time with
    | none => exact absurd hex hx
    | some e =>
      constructor
      · unfold reportedDuration
        rw [hex]
      · intro now'
        unfold reportedDuration
        rw [hex]

/-- Witness for C9: at `activeStore` the latest active session is `sess0`
with no end time, and the reported duration at `now = 5` is the live
`round (5 - 0) = 5`. -/
theorem C9_live_vs_stored_duration_witness :
    (latestActive "x" activeStore = some sess0 ∧ sess0.end_time = none) ∧
    (current_session "x" 5 activeStore =
        some (sess0.start_time, some ((round ((5 : ℚ) - sess0.start_time) : ℤ) : ℚ)) ∧
      ∀ x : Session, x.end_time ≠ none →
        reportedDuration 5 x = x.duration ∧
        ∀ now' : ℚ, reportedDuration now' x = x.duration) :=
  ⟨⟨rfl, rfl⟩, C9_live_vs_stored_duration "x" 5 activeStore sess0 rfl rfl⟩

/-- C10 counterexample: the claim says probe results with timestamp at or
before the stored `last_check` are rejected and leave the store unchanged.
No such check exists: feeding `record_connection` the time 50 against a
status row with `last_check = 100` inserts rows and rewinds `last_check` to
50. -/
theorem C10_stale_counterexample :
    (findStatus "x" c10store).map (fun r => r.last_check) = some 100 ∧
    (findStatus "x" (record_connection "x" 50 c10store)).map
      (fun r => r.last_check) = some 50 ∧
    (record_connection "x" 50 c10store).events ≠ c10store.events := by
  refine ⟨rfl, rfl, fun h => ?_⟩
  have hlen := congrArg List.length h
  simp [record_connection, openSession, connStatusUpdate, findStatus,
    statusUpdate, activeSessions, c10store, connectEdgeUpdate] at hlen

/-- C10 amended: no staleness rejection is performed; both record
operations always run and stamp the target's `last_check` with the supplied
time, even when it is at or before the stored `last_check`, so `last_check`
can decrease. -/
theorem C10_always_stamps_last_check (t : String) (now : ℚ) (st : Store) :
    (∃ r, findStatus t (record_connection t now st) = some r ∧
      r.last_check = now) ∧
    (∃ r, findStatus t (record_disconnection t now st) = some r ∧
      r.last_check = now) :=
  ⟨connStatusUpdate_lastCheck t now (openSession t now st),
   disconnStatusUpdate_lastCheck t now (closeSession t now st)⟩

end SubNetx
